import Mathlib

set_option linter.unusedVariables false

/-!
Shallow embedding of `vm/src/frame.rs` from RustPython: the execution frame
of a stack-based bytecode interpreter.  The frame owns an operand stack and a
block stack, holds the instruction pointer, and dispatches instructions
against a host virtual machine.  The host VM (object model, method dispatch,
iteration protocol, attribute access) is out of scope of the source file and
is modelled as a structure of oracle functions (`VM`); the VM's
current-exception register, which the frame mutates through
`push_exception` / `pop_exception`, is carried in the frame state.

Rust `Vec` stacks are lists with the top at the END of the list, so `push`
is append, `pop` takes the last element, and `Vec::truncate` is `List.take`.
Rust panics (`panic!`, `unreachable!`, `expect`, out-of-bounds indexing) are
modelled by a `fatal` outcome; fallible operations return `Except`-style
results.
-/

namespace RustPythonFrame

/-- A bytecode label (resolved through the code object's label map). -/
abbrev Label := Nat

/-- Host objects, concretely enough for the frame's own observations.
Exception instances carry their class id, message, traceback list and the
`__cause__` / `__context__` attributes that the `Raise` executor writes. -/
inductive Obj where
  | none
  | boolv (b : Bool)
  | intv (n : Int)
  | strv (s : String)
  | tup (elems : List Obj)
  | list (elems : List Obj)
  | clsv (id : Nat)
  | raw (id : Nat)
  | exc (clsId : Nat) (msg : String) (traceback : List Obj) (cause context : Obj)

/-- Class id for non-exception objects (their class is irrelevant here). -/
def objectClassId : Nat := 0

/-- Class id of the runtime-error exception type. -/
def runtimeErrorId : Nat := 1

/-- Class id of the type-error exception type. -/
def typeErrorId : Nat := 2

/-- Class id of the value-error exception type. -/
def valueErrorId : Nat := 3

/-- Class id of the import-error exception type. -/
def importErrorId : Nat := 4

/-- Modelled from the spec: `vm.new_exception(type, msg)` (the VM's exception
constructor lives outside the frame source); it builds an instance of the
given exception class with the given message and an empty traceback. -/
def newException (cls : Nat) (msg : String) : Obj :=
  Obj.exc cls msg [] Obj.none Obj.none

/-- Modelled from the spec: `vm.new_value_error(msg)`. -/
def newValueError (msg : String) : Obj := newException valueErrorId msg

/-- Modelled from the spec: `vm.new_type_error(msg)`. -/
def newTypeError (msg : String) : Obj := newException typeErrorId msg

/-- Modelled from the spec: `vm.new_import_error(msg)`. -/
def newImportError (msg : String) : Obj := newException importErrorId msg

/-- Modelled from the spec: `vm.new_empty_exception(cls)` instantiates an
exception class with no arguments, producing an instance of that class. -/
def newEmptyException (cls : Nat) : Obj :=
  Obj.exc cls "" [] Obj.none Obj.none

/-- The class of an object (`exc.class()` in the source); only exception
instances' classes matter to the frame. -/
def Obj.classOf : Obj → Obj
  | .exc c _ _ _ _ => .clsv c
  | _ => .clsv objectClassId

/-- Whether an object is a `BaseException` instance
(`objtype::isinstance(&exc, &vm.ctx.exceptions.base_exception_type)`). -/
def isBaseExceptionInstance : Obj → Bool
  | .exc _ _ _ _ _ => true
  | _ => false

/-- Effect of `vm.set_attr` for the `__cause__` / `__context__` attributes the
`Raise` executor writes on the (guaranteed) exception instance it raises. -/
def setExcAttr (o : Obj) (name : String) (v : Obj) : Obj :=
  match o with
  | .exc c m tb cause context =>
    if name = "__cause__" then .exc c m tb v context
    else if name = "__context__" then .exc c m tb cause v
    else .exc c m tb cause context
  | _ => o

/-- Bytecode instructions (the subset of the source's instruction set this
development reasons about). -/
inductive Instruction where
  | loadConst (v : Obj)
  | popI
  | mapAdd (i : Nat)
  | getIterI
  | forIter (target : Label)
  | yieldValue
  | yieldFrom
  | setupLoop (startL endL : Label)
  | setupExcept (handler : Label)
  | setupWith (endL : Label)
  | cleanupWith (endL : Label)
  | popBlockI
  | popExceptionI
  | jumpI (target : Label)
  | breakI
  | continueI
  | raiseI (argc : Nat)
  | returnValue
  | unpackSequence (size : Nat)
  | unpackEx (before after : Nat)
  | importFrom (name : String)

/-- The code object: instruction list, label map, per-instruction source
locations (line numbers), owning-object name and source path. -/
structure CodeObject where
  instructions : List Instruction
  labelMap : Label → Nat
  locations : Nat → Nat
  objName : String
  sourcePath : String

/-- The type of a block on the block stack. -/
inductive BlockType where
  | loop (startL endL : Label)
  | tryExcept (handler : Label)
  | withBlock (endL : Label) (contextManager : Obj)
  | exceptHandler

/-- A block: its type and the operand-stack level recorded when pushed. -/
structure Block where
  typ : BlockType
  level : Nat

/-- The mutable frame state: operand stack, block stack, instruction pointer,
and the VM's exception register stack (`push_exception` / `pop_exception`). -/
structure St where
  stack : List Obj
  blocks : List Block
  lasti : Nat
  vmExc : List Obj

/-- Push a value on the operand stack (`Frame::push_value`). -/
def pushValue (st : St) (obj : Obj) : St :=
  { st with stack := st.stack ++ [obj] }

/-- Pop the top value (`Frame::pop_value`); the source panics on an empty
stack, which callers turn into a fatal outcome. -/
def popValue (st : St) : Option (Obj × St) :=
  match st.stack.getLast? with
  | Option.none => Option.none
  | Option.some v => Option.some (v, { st with stack := st.stack.dropLast })

/-- Peek the top value (`Frame::last_value`). -/
def lastValue (st : St) : Option Obj := st.stack.getLast?

/-- Peek the value `depth` below the top (`Frame::nth_value`, which indexes
`stack[len - depth - 1]` and panics when the stack is too short). -/
def nthValue (st : St) (depth : Nat) : Option Obj :=
  if depth + 1 ≤ st.stack.length then st.stack[st.stack.length - depth - 1]?
  else Option.none

/-- Push a block recording the current operand-stack height
(`Frame::push_block`). -/
def pushBlock (st : St) (typ : BlockType) : St :=
  { st with blocks := st.blocks ++ [{ typ := typ, level := st.stack.length }] }

/-- Pop the top block and unconditionally truncate the operand stack to the
block's recorded level (`Frame::pop_block`). -/
def popBlock (st : St) : Option (Block × St) :=
  match st.blocks.getLast? with
  | Option.none => Option.none
  | Option.some block =>
    Option.some (block,
      { st with blocks := st.blocks.dropLast, stack := st.stack.take block.level })

/-- Peek the top block (`Frame::current_block`). -/
def currentBlock (st : St) : Option Block := st.blocks.getLast?

/-- Reassign the instruction pointer to a label's target (`Frame::jump`). -/
def jump (code : CodeObject) (label : Label) (st : St) : St :=
  { st with lasti := code.labelMap label }

/-- The VM's `push_exception`. -/
def pushExcReg (st : St) (exc : Obj) : St :=
  { st with vmExc := st.vmExc ++ [exc] }

/-- The VM's `pop_exception` (`None` when the register stack is empty). -/
def popExcReg (st : St) : Option St :=
  match st.vmExc.getLast? with
  | Option.none => Option.none
  | Option.some _ => Option.some { st with vmExc := st.vmExc.dropLast }

/-- The VM's `current_exception`. -/
def currentException (st : St) : Option Obj := st.vmExc.getLast?

/-- The host VM's behavior, abstracted as oracle functions
(method dispatch, boolean coercion, iteration, attributes, element
extraction, and the exception class hierarchy). -/
structure VM where
  callMethod : Obj → String → List Obj → Except Obj Obj
  boolval : Obj → Except Obj Bool
  getNext : Obj → Except Obj (Option Obj)
  getIter : Obj → Except Obj Obj
  getAttr : Obj → String → Except Obj Obj
  extractElements : Obj → Except Obj (List Obj)
  derivesBaseException : Nat → Bool

/-- Terminal outcome of running a frame (`ExecutionResult`). -/
inductive ExecutionResult where
  | ret (value : Obj)
  | yld (value : Obj)

/-- Result of one executor: success with a value and the new state, a raised
exception with the state as mutated so far, or a Rust panic. -/
inductive Res (α : Type) where
  | ok (a : α) (st : St)
  | err (e : Obj) (st : St)
  | fatal

/-- The helper `Frame::call_context_manager_exit_no_exception`:
`cm.__exit__(None, None, None)`. -/
def callContextManagerExitNoException (vm : VM) (contextManager : Obj) :
    Except Obj Obj :=
  vm.callMethod contextManager "__exit__" [Obj.none, Obj.none, Obj.none]

/-- The helper `Frame::call_context_manager_exit`:
`cm.__exit__(type(exc), exc, None)`. -/
def callContextManagerExit (vm : VM) (contextManager : Obj) (exc : Obj) :
    Except Obj Obj :=
  vm.callMethod contextManager "__exit__" [exc.classOf, exc, Obj.none]

theorem popValue_concat {st : St} {l : List Obj} {a : Obj}
    (h : st.stack = l ++ [a]) :
    popValue st = Option.some (a, { st with stack := l }) := by
  simp [popValue, h]

theorem lastValue_concat {st : St} {l : List Obj} {a : Obj}
    (h : st.stack = l ++ [a]) : lastValue st = Option.some a := by
  simp [lastValue, h]

theorem popBlock_concat {st : St} {bs : List Block} {b : Block}
    (h : st.blocks = bs ++ [b]) :
    popBlock st =
      Option.some (b, { st with blocks := bs, stack := st.stack.take b.level }) := by
  simp [popBlock, h]

theorem popBlock_blocks_length {st : St} {b : Block} {st' : St}
    (h : popBlock st = Option.some (b, st')) :
    st'.blocks.length < st.blocks.length := by
  unfold popBlock at h
  cases hl : st.blocks.getLast? with
  | none => rw [hl] at h; cases h
  | some blk =>
    rw [hl] at h
    cases h
    have hne : st.blocks ≠ [] := by
      intro hnil
      rw [hnil] at hl
      cases hl
    have hpos : 0 < st.blocks.length := List.length_pos.mpr hne
    simp only [List.length_dropLast]
    omega

theorem popExcReg_blocks {st st' : St} (h : popExcReg st = Option.some st') :
    st'.blocks = st.blocks := by
  unfold popExcReg at h
  cases hl : st.vmExc.getLast? with
  | none => rw [hl] at h; cases h
  | some e => rw [hl] at h; cases h; rfl

/-- Result of `Frame::unwind_blocks` (used by `ReturnValue`): all blocks
unwound, or a `With` exit raised (`Some(exc)`), or a panic. -/
inductive UnwindBlocksRes where
  | done (st : St)
  | raised (e : Obj) (st : St)
  | fatal

/-- The source's `Frame::unwind_blocks`: pop every block; a `Loop` or
`TryExcept` is discarded, a `With` triggers a no-exception `__exit__` whose
error stops the walk, an `ExceptHandler` pops the VM exception register. -/
def unwindBlocks (vm : VM) (st : St) : UnwindBlocksRes :=
  match h : popBlock st with
  | Option.none => .done st
  | Option.some (block, st1) =>
    match block.typ with
    | .loop _ _ => unwindBlocks vm st1
    | .tryExcept _ => unwindBlocks vm st1
    | .withBlock _ contextManager =>
      match callContextManagerExitNoException vm contextManager with
      | .ok _ => unwindBlocks vm st1
      | .error exc => .raised exc st1
    | .exceptHandler =>
      match hp : popExcReg st1 with
      | Option.some st2 => unwindBlocks vm st2
      | Option.none => .fatal
termination_by st.blocks.length
decreasing_by
  all_goals first
    | exact popBlock_blocks_length h
    | (have h1 := popBlock_blocks_length h
       have h2 := popExcReg_blocks hp
       rw [h2]
       exact h1)

/-- Result of `Frame::unwind_loop` (used by `Break` / `Continue`): the
innermost `Loop` block found (left on the block stack), or a panic. -/
inductive LoopRes where
  | found (b : Block) (st : St)
  | fatal

/-- The source's `Frame::unwind_loop`: peek blocks until the innermost
`Loop`; a `TryExcept` is popped, a `With` runs the no-exception `__exit__`
and PANICS if it raises, an `ExceptHandler` pops the VM exception register;
an empty block stack panics (`expect("not in a loop")`). -/
def unwindLoop (vm : VM) (st : St) : LoopRes :=
  match currentBlock st with
  | Option.none => .fatal
  | Option.some block =>
    match block.typ with
    | .loop _ _ => .found block st
    | .tryExcept _ =>
      match h : popBlock st with
      | Option.some (_, st1) => unwindLoop vm st1
      | Option.none => .fatal
    | .withBlock _ contextManager =>
      match callContextManagerExitNoException vm contextManager with
      | .ok _ =>
        match h : popBlock st with
        | Option.some (_, st1) => unwindLoop vm st1
        | Option.none => .fatal
      | .error _ => .fatal
    | .exceptHandler =>
      match hp : popExcReg st with
      | Option.some st1 =>
        match h : popBlock st1 with
        | Option.some (_, st2) => unwindLoop vm st2
        | Option.none => .fatal
      | Option.none => .fatal
termination_by st.blocks.length
decreasing_by
  all_goals first
    | exact popBlock_blocks_length h
    | (have h1 := popBlock_blocks_length h
       have h2 := popExcReg_blocks hp
       rw [← h2]
       exact h1)

/-- Result of `Frame::unwind_exception`: a handler was found and dispatch
continues (`None` in the source), or the frame exits with an exception
(`Some(exc)`), or a panic. -/
inductive UnwindRes where
  | handled (st : St)
  | unhandled (e : Obj) (st : St)
  | fatal

/-- The source's `Frame::unwind_exception`: pop blocks until a `TryExcept`
handles the exception (push an `ExceptHandler` block, push the exception on
the operand stack, write the VM exception register, jump to the handler); a
`With` calls `__exit__(type(e), e, None)` and honors its truthiness — truthy
suppresses (jump to `end`), falsy continues with the original exception, and
an error from `__exit__` (or from coercing its result) RETURNS that new
exception immediately; a `Loop` is discarded; an `ExceptHandler` pops the VM
exception register.  An empty block stack returns the exception unhandled. -/
def unwindException (vm : VM) (code : CodeObject) (st : St) (exc : Obj) :
    UnwindRes :=
  match h : popBlock st with
  | Option.none => .unhandled exc st
  | Option.some (block, st1) =>
    match block.typ with
    | .tryExcept handler =>
      let st2 := pushBlock st1 .exceptHandler
      let st3 := pushValue st2 exc
      let st4 := pushExcReg st3 exc
      .handled (jump code handler st4)
    | .withBlock endL contextManager =>
      match callContextManagerExit vm contextManager exc with
      | .ok exitResultObj =>
        match vm.boolval exitResultObj with
        | .ok true => .handled (jump code endL st1)
        | .ok false => unwindException vm code st1 exc
        | .error exitExc => .unhandled exitExc st1
      | .error exitExc => .unhandled exitExc st1
    | .loop _ _ => unwindException vm code st1 exc
    | .exceptHandler =>
      match hp : popExcReg st1 with
      | Option.some st2 => unwindException vm code st2 exc
      | Option.none => .fatal
termination_by st.blocks.length
decreasing_by
  all_goals first
    | exact popBlock_blocks_length h
    | (have h1 := popBlock_blocks_length h
       have h2 := popExcReg_blocks hp
       rw [h2]
       exact h1)

/-- The source's `Frame::get_exception(none_allowed)`: pop a value; accept a
`BaseException` instance (or, when allowed, the none value); a class deriving
`BaseException` is instantiated with no arguments; anything else is a
type-error. -/
def getException (vm : VM) (st : St) (noneAllowed : Bool) : Res Obj :=
  match popValue st with
  | Option.none => .fatal
  | Option.some (exception, st1) =>
    if (noneAllowed && (match exception with | .none => true | _ => false))
        || isBaseExceptionInstance exception then
      .ok exception st1
    else
      match exception with
      | .clsv cid =>
        if vm.derivesBaseException cid then
          .ok (newEmptyException cid) st1
        else
          .err (newTypeError
            ("Can only raise BaseException derived types, not " ++ toString cid)) st1
      | _ => .err (newTypeError "exceptions must derive from BaseException") st1

/-- The `cause` computation of the `Raise` arm
(`match argc { 2 => self.get_exception(vm, true)?, _ => vm.get_none() }`). -/
def raiseCause (vm : VM) (st : St) (argc : Nat) : Res Obj :=
  match argc with
  | 2 => getException vm st true
  | _ => .ok Obj.none st

/-- The `exception` computation of the `Raise` arm: `argc=0` re-raises the
VM's current exception or fails with the runtime-error, `argc=1,2` pop and
normalize via `get_exception`, `argc=3` panics (`Not implemented!`), larger
values panic. -/
def raiseException (vm : VM) (st : St) (argc : Nat) : Res Obj :=
  match argc with
  | 0 =>
    match currentException st with
    | Option.some exc => .ok exc st
    | Option.none =>
      .err (newException runtimeErrorId "No active exception to reraise") st
  | 1 | 2 => getException vm st false
  | _ => .fatal

/-- The source's `Frame::execute_instruction`, for the modelled subset of the
instruction set.  Each arm mirrors the corresponding `match` arm of the
source (or the helper method it delegates to). -/
def executeInstruction (vm : VM) (code : CodeObject) (st : St) :
    Instruction → Res (Option ExecutionResult)
  | .loadConst v => .ok Option.none (pushValue st v)
  | .popI =>
    match popValue st with
    | Option.none => .fatal
    | Option.some (_, st1) => .ok Option.none st1
  | .mapAdd i =>
    match nthValue st (i + 1) with
    | Option.none => .fatal
    | Option.some dictObj =>
      match popValue st with
      | Option.none => .fatal
      | Option.some (key, st1) =>
        match popValue st1 with
        | Option.none => .fatal
        | Option.some (value, st2) =>
          match vm.callMethod dictObj "__setitem__" [key, value] with
          | .ok _ => .ok Option.none st2
          | .error e => .err e st2
  | .getIterI =>
    match popValue st with
    | Option.none => .fatal
    | Option.some (iteratedObj, st1) =>
      match vm.getIter iteratedObj with
      | .ok iterObj => .ok Option.none (pushValue st1 iterObj)
      | .error e => .err e st1
  | .forIter target =>
    match lastValue st with
    | Option.none => .fatal
    | Option.some topOfStack =>
      match vm.getNext topOfStack with
      | .ok (Option.some value) => .ok Option.none (pushValue st value)
      | .ok Option.none =>
        match popValue st with
        | Option.some (_, st1) => .ok Option.none (jump code target st1)
        | Option.none => .fatal
      | .error nextError =>
        match popValue st with
        | Option.some (_, st1) => .err nextError st1
        | Option.none => .fatal
  | .yieldValue =>
    match popValue st with
    | Option.none => .fatal
    | Option.some (value, st1) => .ok (Option.some (.yld value)) st1
  | .yieldFrom =>
    match popValue st with
    | Option.none => .fatal
    | Option.some (_, st1) =>
      match lastValue st1 with
      | Option.none => .fatal
      | Option.some topOfStack =>
        match vm.getNext topOfStack with
        | .ok (Option.some value) =>
          .ok (Option.some (.yld value)) { st1 with lasti := st1.lasti - 1 }
        | .ok Option.none => .ok Option.none st1
        | .error e => .err e st1
  | .setupLoop startL endL => .ok Option.none (pushBlock st (.loop startL endL))
  | .setupExcept handler => .ok Option.none (pushBlock st (.tryExcept handler))
  | .setupWith endL =>
    match popValue st with
    | Option.none => .fatal
    | Option.some (contextManager, st1) =>
      match vm.callMethod contextManager "__enter__" [] with
      | .error e => .err e st1
      | .ok obj =>
        .ok Option.none (pushValue (pushBlock st1 (.withBlock endL contextManager)) obj)
  | .cleanupWith _ =>
    match popBlock st with
    | Option.none => .fatal
    | Option.some (block, st1) =>
      match block.typ with
      | .withBlock _ contextManager =>
        match callContextManagerExitNoException vm contextManager with
        | .ok _ => .ok Option.none st1
        | .error e => .err e st1
      | _ => .fatal
  | .popBlockI =>
    match popBlock st with
    | Option.none => .fatal
    | Option.some (_, st1) => .ok Option.none st1
  | .popExceptionI =>
    match popBlock st with
    | Option.none => .fatal
    | Option.some (block, st1) =>
      match block.typ with
      | .exceptHandler =>
        match popExcReg st1 with
        | Option.some st2 => .ok Option.none st2
        | Option.none => .fatal
      | _ => .fatal
  | .jumpI target => .ok Option.none (jump code target st)
  | .breakI =>
    match unwindLoop vm st with
    | .fatal => .fatal
    | .found block st1 =>
      match block.typ with
      | .loop _ endL =>
        let st2 := match popBlock st1 with
          | Option.some (_, s) => s
          | Option.none => st1
        .ok Option.none (jump code endL st2)
      | _ => .fatal
  | .continueI =>
    match unwindLoop vm st with
    | .fatal => .fatal
    | .found block st1 =>
      match block.typ with
      | .loop startL _ => .ok Option.none (jump code startL st1)
      | _ => .fatal
  | .raiseI argc =>
    match raiseCause vm st argc with
    | .fatal => .fatal
    | .err e st1 => .err e st1
    | .ok cause st1 =>
      match raiseException vm st1 argc with
      | .fatal => .fatal
      | .err e st2 => .err e st2
      | .ok exception st2 =>
        let context := match argc with
          | 0 => Obj.none
          | _ => (currentException st2).getD Obj.none
        let exception1 := setExcAttr exception "__cause__" cause
        let exception2 := setExcAttr exception1 "__context__" context
        .err exception2 st2
  | .returnValue =>
    match popValue st with
    | Option.none => .fatal
    | Option.some (value, st1) =>
      match unwindBlocks vm st1 with
      | .done st2 => .ok (Option.some (.ret value)) st2
      | .raised e st2 => .err e st2
      | .fatal => .fatal
  | .unpackSequence size =>
    match popValue st with
    | Option.none => .fatal
    | Option.some (value, st1) =>
      match vm.extractElements value with
      | .error e => .err e st1
      | .ok elements =>
        if elements.length = size then
          .ok Option.none { st1 with stack := st1.stack ++ elements.reverse }
        else
          .err (newValueError "Wrong number of values to unpack") st1
  | .unpackEx before after =>
    match popValue st with
    | Option.none => .fatal
    | Option.some (value, st1) =>
      match vm.extractElements value with
      | .error e => .err e st1
      | .ok elements =>
        let minExpected := before + after
        if elements.length < minExpected then
          .err (newValueError
            ("Not enough values to unpack (expected at least " ++
              toString minExpected ++ ", got " ++ toString elements.length)) st1
        else
          let middle := elements.length - before - after
          let middleElements := (elements.drop before).take middle
          .ok Option.none
            { st1 with stack :=
                st1.stack ++ (elements.drop (before + middle)).reverse ++
                  [Obj.list middleElements] ++ (elements.take before).reverse }
  | .importFrom name =>
    match lastValue st with
    | Option.none => .fatal
    | Option.some module =>
      match vm.getAttr module name with
      | .ok obj => .ok Option.none (pushValue st obj)
      | .error _ =>
        .err (newImportError ("cannot import name '" ++ name ++ "'")) st

/-- One fetch-and-execute step of the dispatch loop: read the instruction at
the pointer, advance the pointer by one (`Frame::fetch_instruction`), and
apply the instruction. -/
def step (vm : VM) (code : CodeObject) (st : St) : Res (Option ExecutionResult) :=
  match code.instructions[st.lasti]? with
  | Option.none => .fatal
  | Option.some instr => executeInstruction vm code { st with lasti := st.lasti + 1 } instr

/-- The error branch of `Frame::run`: assert the raised object is a
`BaseException` instance, append the `(source-path, line, owning-name)`
record to its traceback list, then unwind the block stack. -/
def handleException (vm : VM) (code : CodeObject) (lineno : Nat)
    (exception : Obj) (st : St) : UnwindRes :=
  match exception with
  | .exc c m tb cause context =>
    let raiseLocation :=
      Obj.tup [Obj.strv code.sourcePath, Obj.intv lineno, Obj.strv code.objName]
    unwindException vm code st (.exc c m (tb ++ [raiseLocation]) cause context)
  | _ => .fatal

/-- Terminal outcome of `Frame::run`, with a fuel bound on the number of loop
iterations. -/
inductive RunRes where
  | done (r : ExecutionResult) (st : St)
  | raised (e : Obj) (st : St)
  | fatal
  | outOfFuel (st : St)

/-- The source's `Frame::run`: record the current line, execute one
instruction; on success continue or finish; on a raised exception append the
traceback record and unwind, continuing at a handler or exiting the frame. -/
def run (vm : VM) (code : CodeObject) (fuel : Nat) (st : St) : RunRes :=
  match fuel with
  | 0 => .outOfFuel st
  | Nat.succ fuel1 =>
    let lineno := code.locations st.lasti
    match step vm code st with
    | .ok Option.none st1 => run vm code fuel1 st1
    | .ok (Option.some value) st1 => .done value st1
    | .err exception st1 =>
      match handleException vm code lineno exception st1 with
      | .handled st2 => run vm code fuel1 st2
      | .unhandled e st2 => .raised e st2
      | .fatal => .fatal
    | .fatal => .fatal

/-! Concrete fixtures used by witnesses and counterexamples. -/

/-- A small code object with an identity label map. -/
def codeT : CodeObject :=
  { instructions := [], labelMap := fun l => l, locations := fun _ => 0,
    objName := "f", sourcePath := "a.py" }

/-- A VM whose `__setitem__` succeeds only for the call
`(raw 9).__setitem__("a", "b")` and fails on every other method call. -/
def vmSetItem : VM :=
  { callMethod := fun obj name args =>
      match obj, name, args with
      | .raw 9, "__setitem__", [.strv "a", .strv "b"] => .ok Obj.none
      | _, _, _ => .error (newTypeError "unexpected call"),
    boolval := fun _ => .ok false,
    getNext := fun _ => .ok Option.none,
    getIter := fun o => .ok o,
    getAttr := fun _ _ => .error Obj.none,
    extractElements := fun _ => .ok [],
    derivesBaseException := fun _ => true }

/-- A VM with a deterministic iterator protocol and element extraction. -/
def vmIter : VM :=
  { callMethod := fun _ _ _ => .ok Obj.none,
    boolval := fun _ => .ok false,
    getNext := fun o =>
      match o with
      | .raw 1 => .ok (Option.some (Obj.intv 5))
      | .raw 2 => .ok Option.none
      | _ => .error (newValueError "nope"),
    getIter := fun o => .ok o,
    getAttr := fun m name =>
      match m, name with
      | .raw 3, "x" => .ok (Obj.intv 3)
      | _, _ => .error Obj.none,
    extractElements := fun o =>
      match o with
      | .list l => .ok l
      | _ => .error (newTypeError "not iterable"),
    derivesBaseException := fun _ => true }

/-- Frame state for the MapAdd counterexample:
stack (bottom to top) `[raw 0, raw 9, raw 0, "b", "a"]`. -/
def stMapAdd : St :=
  { stack := [Obj.raw 0, Obj.raw 9, Obj.raw 0, Obj.strv "b", Obj.strv "a"],
    blocks := [], lasti := 0, vmExc := [] }

/-- Frame state for the MapAdd witness. -/
def stMapAddW : St :=
  { stack := [Obj.raw 9, Obj.raw 0, Obj.raw 0, Obj.strv "q", Obj.strv "p"],
    blocks := [], lasti := 0, vmExc := [] }

/-! Claim theorems. -/

/-- C2: popping a block truncates the operand stack to the height recorded
when the block was pushed; the truncation is unconditional, so whenever the
recorded level is at most the current height the resulting height equals the
recorded level, and popping a just-pushed block restores the state exactly
(the level recorded at push is the then-current stack height). -/
theorem c2_pop_block_truncates (st : St) (b : Block) (st' : St)
    (h : popBlock st = Option.some (b, st')) :
    st'.stack = st.stack.take b.level ∧
    (b.level ≤ st.stack.length → st'.stack.length = b.level) ∧
    (∀ (s : St) (t : BlockType),
      popBlock (pushBlock s t) =
        Option.some ({ typ := t, level := s.stack.length }, s)) := by
  unfold popBlock at h
  cases hl : st.blocks.getLast? with
  | none => rw [hl] at h; cases h
  | some blk =>
    rw [hl] at h
    cases h
    refine ⟨rfl, ?_, ?_⟩
    · intro hle
      simp only [List.length_take]
      omega
    · intro s t
      simp [popBlock, pushBlock]

/-- Witness for C2 at a concrete state: a block recorded at level 1 over a
stack of height 3; popping it truncates the stack to exactly height 1. -/
theorem c2_pop_block_truncates_witness :
    popBlock
        { stack := [Obj.intv 1, Obj.intv 2, Obj.intv 3],
          blocks := [{ typ := .loop 0 1, level := 1 }], lasti := 0, vmExc := [] } =
      Option.some ({ typ := .loop 0 1, level := 1 },
        { stack := [Obj.intv 1], blocks := [], lasti := 0, vmExc := [] }) ∧
    ([Obj.intv 1] : List Obj).length = 1 := by
  refine ⟨rfl, ?_⟩
  have h := c2_pop_block_truncates
    { stack := [Obj.intv 1, Obj.intv 2, Obj.intv 3],
      blocks := [{ typ := .loop 0 1, level := 1 }], lasti := 0, vmExc := [] }
    { typ := .loop 0 1, level := 1 }
    { stack := [Obj.intv 1], blocks := [], lasti := 0, vmExc := [] } rfl
  exact h.2.1 (by decide)

/-- C3 (amended): `MapAdd(i)` peeks the `(i+1)`-th element below the top as
the dict, pops the KEY first (the key is on top of the stack) and the value
second (below it), and calls `__setitem__(key, value)` on the dict. -/
theorem c3_map_add (vm : VM) (code : CodeObject) (st : St) (i : Nat)
    (rest : List Obj) (v k d : Obj)
    (hlen : i + 3 ≤ st.stack.length)
    (hst : st.stack = rest ++ [v, k])
    (hd : nthValue st (i + 1) = Option.some d) :
    executeInstruction vm code st (.mapAdd i) =
      match vm.callMethod d "__setitem__" [k, v] with
      | .ok _ => Res.ok Option.none { st with stack := rest }
      | .error e => Res.err e { st with stack := rest } := by
  have hst' : st.stack = (rest ++ [v]) ++ [k] := by simp [hst]
  have hp1 := popValue_concat hst'
  have hp2 : popValue { st with stack := rest ++ [v] } =
      Option.some (v, { st with stack := rest }) := popValue_concat rfl
  simp only [executeInstruction, hd, hp1, hp2]

/-- Counterexample for C3 as stated: with stack (bottom to top)
`[raw 0, raw 9, raw 0, "b", "a"]` and a VM whose `__setitem__` succeeds only
when called with arguments `("a", "b")`, `MapAdd(2)` succeeds — so the
executor popped the top `"a"` as the KEY and `"b"` as the value, while the
claim's order (value on top) would have produced the failing call shown in
the second conjunct. -/
theorem c3_map_add_cex :
    executeInstruction vmSetItem codeT stMapAdd (.mapAdd 2) =
      Res.ok Option.none { stMapAdd with stack := [Obj.raw 0, Obj.raw 9, Obj.raw 0] } ∧
    vmSetItem.callMethod (Obj.raw 9) "__setitem__" [Obj.strv "b", Obj.strv "a"] =
      .error (newTypeError "unexpected call") := ⟨rfl, rfl⟩

/-- Witness for C3 on the error path of `__setitem__`. -/
theorem c3_map_add_witness :
    executeInstruction vmSetItem codeT stMapAddW (.mapAdd 2) =
      Res.err (newTypeError "unexpected call")
        { stMapAddW with stack := [Obj.raw 9, Obj.raw 0, Obj.raw 0] } := by
  have h := c3_map_add vmSetItem codeT stMapAddW 2
    [Obj.raw 9, Obj.raw 0, Obj.raw 0] (Obj.strv "q") (Obj.strv "p") (Obj.raw 0)
    (by decide) rfl rfl
  exact h

/-- C7: `ForIter(target)` peeks the iterator on top of the stack; a produced
value is pushed above the iterator and dispatch falls through; on exhaustion
the iterator is popped and the pointer jumps to `target`; on an error the
iterator is popped and the error propagates. -/
theorem c7_for_iter (vm : VM) (code : CodeObject) (st : St) (target : Label)
    (it : Obj) (hit : lastValue st = Option.some it) :
    executeInstruction vm code st (.forIter target) =
      match vm.getNext it with
      | .ok (Option.some value) => Res.ok Option.none (pushValue st value)
      | .ok Option.none =>
        Res.ok Option.none (jump code target { st with stack := st.stack.dropLast })
      | .error e => Res.err e { st with stack := st.stack.dropLast } := by
  have hpop : popValue st = Option.some (it, { st with stack := st.stack.dropLast }) := by
    unfold popValue
    unfold lastValue at hit
    rw [hit]
  simp only [executeInstruction, hit, hpop]

/-- Witness for C7: a concrete iterator producing the value 5, which is
pushed above the iterator. -/
theorem c7_for_iter_witness :
    executeInstruction vmIter codeT
        { stack := [Obj.raw 1], blocks := [], lasti := 0, vmExc := [] } (.forIter 4) =
      Res.ok Option.none
        { stack := [Obj.raw 1, Obj.intv 5], blocks := [], lasti := 0, vmExc := [] } := by
  have h := c7_for_iter vmIter codeT
    { stack := [Obj.raw 1], blocks := [], lasti := 0, vmExc := [] } 4 (Obj.raw 1) rfl
  exact h

/-- C9: `YieldFrom` at position `p` pops the sent-in value, peeks (does not
pop) the delegate iterator now on top; when the delegate produces a value the
pointer is decremented back to `p` (so re-entry retries the same `YieldFrom`)
and the frame yields that value; on exhaustion dispatch falls through with
the pointer at `p + 1` and nothing yielded. -/
theorem c9_yield_from (vm : VM) (code : CodeObject) (st : St) (p : Nat)
    (rest : List Obj) (sent delegate : Obj)
    (hp : st.lasti = p)
    (hins : code.instructions[p]? = Option.some Instruction.yieldFrom)
    (hst : st.stack = rest ++ [delegate, sent]) :
    step vm code st =
      match vm.getNext delegate with
      | .ok (Option.some value) =>
        Res.ok (Option.some (.yld value)) { st with stack := rest ++ [delegate], lasti := p }
      | .ok Option.none =>
        Res.ok Option.none { st with stack := rest ++ [delegate], lasti := p + 1 }
      | .error e => Res.err e { st with stack := rest ++ [delegate], lasti := p + 1 } := by
  have hst' : ({ st with lasti := p + 1 } : St).stack = (rest ++ [delegate]) ++ [sent] := by
    simp [hst]
  have hp1 := popValue_concat hst'
  have hlast : lastValue { st with stack := rest ++ [delegate], lasti := p + 1 } =
      Option.some delegate := lastValue_concat rfl
  simp only [step, hp, hins, executeInstruction, hp1, hlast]
  cases hnext : vm.getNext delegate with
  | ok o =>
    cases o with
    | none => rfl
    | some value => simp
  | error e => rfl

/-- Witness for C9: a delegate producing 5; the step yields 5 with the
pointer rewound to the `YieldFrom` itself and the sent-in value popped. -/
theorem c9_yield_from_witness :
    step vmIter
        { instructions := [.yieldFrom], labelMap := fun l => l, locations := fun _ => 0,
          objName := "g", sourcePath := "g.py" }
        { stack := [Obj.raw 1, Obj.none], blocks := [], lasti := 0, vmExc := [] } =
      Res.ok (Option.some (.yld (Obj.intv 5)))
        { stack := [Obj.raw 1], blocks := [], lasti := 0, vmExc := [] } := by
  have h := c9_yield_from vmIter
    { instructions := [.yieldFrom], labelMap := fun l => l, locations := fun _ => 0,
      objName := "g", sourcePath := "g.py" }
    { stack := [Obj.raw 1, Obj.none], blocks := [], lasti := 0, vmExc := [] }
    0 [] Obj.none (Obj.raw 1) rfl rfl rfl
  exact h

/-- C10: `ImportFrom(name)` peeks (does not pop) the module on top of the
stack, reads attribute `name` from it — turning any failure into an
import-error — and pushes the attribute above the module, a net stack effect
of +1 with the module left below the imported value. -/
theorem c10_import_from (vm : VM) (code : CodeObject) (st : St) (name : String)
    (module : Obj) (hm : lastValue st = Option.some module) :
    executeInstruction vm code st (.importFrom name) =
      (match vm.getAttr module name with
       | .ok obj => Res.ok Option.none (pushValue st obj)
       | .error _ =>
         Res.err (newImportError ("cannot import name '" ++ name ++ "'")) st) ∧
    (∀ obj, (pushValue st obj).stack = st.stack ++ [obj] ∧
      (pushValue st obj).stack.length = st.stack.length + 1) := by
  constructor
  · simp only [executeInstruction, hm]
  · intro obj
    exact ⟨rfl, by simp [pushValue]⟩

/-- Witness for C10: importing attribute `x` from the module `raw 3` pushes
the attribute above the module. -/
theorem c10_import_from_witness :
    executeInstruction vmIter codeT
        { stack := [Obj.raw 3], blocks := [], lasti := 0, vmExc := [] } (.importFrom "x") =
      Res.ok Option.none
        { stack := [Obj.raw 3, Obj.intv 3], blocks := [], lasti := 0, vmExc := [] } := by
  have h := c10_import_from vmIter codeT
    { stack := [Obj.raw 3], blocks := [], lasti := 0, vmExc := [] } "x" (Obj.raw 3) rfl
  exact h.1

/-- C8: `UnpackSequence(n)` succeeds iff the extracted element sequence has
exactly `n` elements (pushed in reverse so the first element ends on top),
failing with a value-error otherwise; `UnpackEx(before, after)` fails with a
value-error iff the element count is below `before + after`, and on success
pushes a middle list of length `len − before − after`. -/
theorem c8_unpack (vm : VM) (code : CodeObject) (st : St)
    (size before after : Nat) (rest elements : List Obj) (v : Obj)
    (hst : st.stack = rest ++ [v])
    (hex : vm.extractElements v = .ok elements) :
    (executeInstruction vm code st (.unpackSequence size) =
      if elements.length = size then
        Res.ok Option.none { st with stack := rest ++ elements.reverse }
      else
        Res.err (newValueError "Wrong number of values to unpack")
          { st with stack := rest }) ∧
    (before + after ≤ elements.length →
      executeInstruction vm code st (.unpackEx before after) =
        Res.ok Option.none
          { st with stack :=
              rest ++ (elements.drop (before + (elements.length - before - after))).reverse ++
                [Obj.list ((elements.drop before).take (elements.length - before - after))] ++
                (elements.take before).reverse } ∧
      ((elements.drop before).take (elements.length - before - after)).length =
        elements.length - before - after) ∧
    (elements.length < before + after →
      executeInstruction vm code st (.unpackEx before after) =
        Res.err (newValueError
          ("Not enough values to unpack (expected at least " ++
            toString (before + after) ++ ", got " ++ toString elements.length))
          { st with stack := rest }) := by
  have hp := popValue_concat hst
  refine ⟨?_, ?_, ?_⟩
  · simp only [executeInstruction, hp, hex]
  · intro hle
    constructor
    · simp only [executeInstruction, hp, hex]
      rw [if_neg (by omega)]
    · simp only [List.length_take, List.length_drop]
      omega
  · intro hlt
    simp only [executeInstruction, hp, hex]
    rw [if_pos hlt]

/-- Witness for C8: unpacking the three-element list `[1, 2, 3]`. -/
theorem c8_unpack_witness :
    executeInstruction vmIter codeT
        { stack := [Obj.list [Obj.intv 1, Obj.intv 2, Obj.intv 3]],
          blocks := [], lasti := 0, vmExc := [] } (.unpackSequence 3) =
      Res.ok Option.none
        { stack := [Obj.intv 3, Obj.intv 2, Obj.intv 1],
          blocks := [], lasti := 0, vmExc := [] } ∧
    executeInstruction vmIter codeT
        { stack := [Obj.list [Obj.intv 1, Obj.intv 2, Obj.intv 3]],
          blocks := [], lasti := 0, vmExc := [] } (.unpackEx 1 1) =
      Res.ok Option.none
        { stack := [Obj.intv 3, Obj.list [Obj.intv 2], Obj.intv 1],
          blocks := [], lasti := 0, vmExc := [] } := by
  have h := c8_unpack vmIter codeT
    { stack := [Obj.list [Obj.intv 1, Obj.intv 2, Obj.intv 3]],
      blocks := [], lasti := 0, vmExc := [] }
    3 1 1 [] [Obj.intv 1, Obj.intv 2, Obj.intv 3]
    (Obj.list [Obj.intv 1, Obj.intv 2, Obj.intv 3]) rfl rfl
  refine ⟨?_, ?_⟩
  · have h1 := h.1
    simpa using h1
  · have h2 := (h.2.1 (by decide)).1
    simpa using h2

/-! Unfolding lemmas for the unwind walks, one block-stack layer at a time. -/

theorem unwindException_empty (vm : VM) (code : CodeObject) (st : St) (exc : Obj)
    (hblk : st.blocks = []) :
    unwindException vm code st exc = .unhandled exc st := by
  have hpb : popBlock st = Option.none := by simp [popBlock, hblk]
  rw [unwindException.eq_def, hpb]

theorem unwindException_withBlock (vm : VM) (code : CodeObject) (st : St)
    (exc : Obj) (bs : List Block) (endL : Label) (cm : Obj) (lvl : Nat)
    (hblk : st.blocks = bs ++ [{ typ := .withBlock endL cm, level := lvl }]) :
    unwindException vm code st exc =
      match callContextManagerExit vm cm exc with
      | .ok exitResultObj =>
        match vm.boolval exitResultObj with
        | .ok true =>
          .handled (jump code endL { st with blocks := bs, stack := st.stack.take lvl })
        | .ok false =>
          unwindException vm code { st with blocks := bs, stack := st.stack.take lvl } exc
        | .error exitExc =>
          .unhandled exitExc { st with blocks := bs, stack := st.stack.take lvl }
      | .error exitExc =>
        .unhandled exitExc { st with blocks := bs, stack := st.stack.take lvl } := by
  have hpb := popBlock_concat hblk
  rw [unwindException.eq_def, hpb]

theorem unwindException_tryExcept (vm : VM) (code : CodeObject) (st : St)
    (exc : Obj) (bs : List Block) (handler : Label) (lvl : Nat)
    (hblk : st.blocks = bs ++ [{ typ := .tryExcept handler, level := lvl }]) :
    unwindException vm code st exc =
      .handled (jump code handler
        (pushExcReg
          (pushValue
            (pushBlock { st with blocks := bs, stack := st.stack.take lvl } .exceptHandler)
            exc)
          exc)) := by
  have hpb := popBlock_concat hblk
  rw [unwindException.eq_def, hpb]

/-! More concrete fixtures. -/

/-- A VM whose `__exit__` on the context manager `raw 5` raises. -/
def vmExitErr : VM :=
  { callMethod := fun obj name _ =>
      match obj, name with
      | .raw 5, "__exit__" => .error (newValueError "exit boom")
      | _, _ => .ok Obj.none,
    boolval := fun o => match o with | .boolv b => .ok b | _ => .ok false,
    getNext := fun _ => .ok Option.none,
    getIter := fun o => .ok o,
    getAttr := fun _ _ => .error Obj.none,
    extractElements := fun _ => .ok [],
    derivesBaseException := fun _ => true }

/-- Block stack (bottom to top) `[TryExcept 7, With 9 (raw 5)]`. -/
def stC1 : St :=
  { stack := [],
    blocks := [{ typ := .tryExcept 7, level := 0 },
               { typ := .withBlock 9 (Obj.raw 5), level := 0 }],
    lasti := 0, vmExc := [] }

/-- The state after the With layer of `stC1` has been popped. -/
def stC1r : St :=
  { stack := [], blocks := [{ typ := .tryExcept 7, level := 0 }], lasti := 0, vmExc := [] }

/-- Block stack (bottom to top) `[Loop, With (raw 5)]` for Break. -/
def stBreak : St :=
  { stack := [],
    blocks := [{ typ := .loop 0 1, level := 0 },
               { typ := .withBlock 1 (Obj.raw 5), level := 0 }],
    lasti := 0, vmExc := [] }

/-- C1 (amended): during exception unwinding, a `With` block calls the
context manager's `__exit__` with the exception; a truthy return suppresses
the exception (jump to the block's `end` label), a falsy return continues
unwinding with the original exception, and when `__exit__` itself raises (or
its result fails boolean coercion) the new exception replaces the original
and unwinding STOPS immediately — the walk returns the new exception
unhandled, without processing any remaining blocks. -/
theorem c1_with_exit_unwind (vm : VM) (code : CodeObject) (st : St) (exc : Obj)
    (bs : List Block) (endL : Label) (cm : Obj) (lvl : Nat) (st1 : St)
    (hblk : st.blocks = bs ++ [{ typ := .withBlock endL cm, level := lvl }])
    (hst1 : st1 = { st with blocks := bs, stack := st.stack.take lvl }) :
    (∀ r, callContextManagerExit vm cm exc = .ok r → vm.boolval r = .ok true →
      unwindException vm code st exc = .handled (jump code endL st1)) ∧
    (∀ r, callContextManagerExit vm cm exc = .ok r → vm.boolval r = .ok false →
      unwindException vm code st exc = unwindException vm code st1 exc) ∧
    (∀ e2, callContextManagerExit vm cm exc = .error e2 →
      unwindException vm code st exc = .unhandled e2 st1) ∧
    (∀ r e2, callContextManagerExit vm cm exc = .ok r → vm.boolval r = .error e2 →
      unwindException vm code st exc = .unhandled e2 st1) := by
  subst hst1
  refine ⟨?_, ?_, ?_, ?_⟩
  · intro r hok hb
    rw [unwindException_withBlock vm code st exc bs endL cm lvl hblk]
    simp only [hok, hb]
  · intro r hok hb
    rw [unwindException_withBlock vm code st exc bs endL cm lvl hblk]
    simp only [hok, hb]
  · intro e2 herr
    rw [unwindException_withBlock vm code st exc bs endL cm lvl hblk]
    simp only [herr]
  · intro r e2 hok hb
    rw [unwindException_withBlock vm code st exc bs endL cm lvl hblk]
    simp only [hok, hb]

/-- Counterexample for C1 as stated: `__exit__` of the top With block raises
`exit boom`; the unwinder returns the new exception immediately even though a
`TryExcept` block remains below — had unwinding continued with the new
exception (as the claim states), that TryExcept would have handled it, as
the third conjunct shows. -/
theorem c1_with_exit_unwind_cex :
    unwindException vmExitErr codeT stC1 (newTypeError "orig") =
      .unhandled (newValueError "exit boom") stC1r ∧
    stC1r.blocks = [{ typ := .tryExcept 7, level := 0 }] ∧
    unwindException vmExitErr codeT stC1r (newValueError "exit boom") =
      .handled
        { stack := [newValueError "exit boom"],
          blocks := [{ typ := .exceptHandler, level := 0 }],
          lasti := 7, vmExc := [newValueError "exit boom"] } := by
  refine ⟨?_, rfl, ?_⟩
  · rw [unwindException_withBlock vmExitErr codeT stC1 (newTypeError "orig")
      [{ typ := .tryExcept 7, level := 0 }] 9 (Obj.raw 5) 0 rfl]
    rfl
  · rw [unwindException_tryExcept vmExitErr codeT stC1r (newValueError "exit boom")
      [] 7 0 rfl]
    rfl

/-- Witness for C1 at a concrete input: the error branch of `__exit__`. -/
theorem c1_with_exit_unwind_witness :
    unwindException vmExitErr codeT
        { stack := [Obj.intv 1, Obj.intv 2],
          blocks := [{ typ := .withBlock 3 (Obj.raw 5), level := 1 }],
          lasti := 0, vmExc := [] }
        (newTypeError "orig") =
      .unhandled (newValueError "exit boom")
        { stack := [Obj.intv 1], blocks := [], lasti := 0, vmExc := [] } := by
  have h := c1_with_exit_unwind vmExitErr codeT
    { stack := [Obj.intv 1, Obj.intv 2],
      blocks := [{ typ := .withBlock 3 (Obj.raw 5), level := 1 }],
      lasti := 0, vmExc := [] }
    (newTypeError "orig") [] 3 (Obj.raw 5) 1
    { stack := [Obj.intv 1], blocks := [], lasti := 0, vmExc := [] }
    rfl rfl
  exact h.2.2.1 (newValueError "exit boom") rfl

/-- C4 (amended): when `Break` (or `Continue`) unwinds toward the innermost
Loop block and an intervening With block's `__exit__` raises, the error is
fatal — `unwind_loop` panics — in BOTH paths; it does not propagate as a
raised exception through the raise machinery. -/
theorem c4_break_with_exit_fatal (vm : VM) (code : CodeObject) (st : St)
    (endL : Label) (cm : Obj) (lvl : Nat) (e : Obj)
    (hblk : currentBlock st = Option.some { typ := .withBlock endL cm, level := lvl })
    (hexit : vm.callMethod cm "__exit__" [Obj.none, Obj.none, Obj.none] = .error e) :
    executeInstruction vm code st .breakI = Res.fatal ∧
    executeInstruction vm code st .continueI = Res.fatal := by
  have hexit' : callContextManagerExitNoException vm cm = .error e := hexit
  have hul : unwindLoop vm st = LoopRes.fatal := by
    rw [unwindLoop.eq_def, hblk]
    simp only [hexit']
  constructor <;> simp only [executeInstruction, hul]

/-- Counterexample for C4 as stated: Break over `[Loop, With (raw 5)]` where
`__exit__` raises; the executor result is the fatal (panic) outcome, not a
propagated `Res.err`. -/
theorem c4_break_with_exit_fatal_cex :
    executeInstruction vmExitErr codeT stBreak .breakI = Res.fatal ∧
    vmExitErr.callMethod (Obj.raw 5) "__exit__" [Obj.none, Obj.none, Obj.none] =
      .error (newValueError "exit boom") := by
  have hul : unwindLoop vmExitErr stBreak = LoopRes.fatal := by
    rw [unwindLoop.eq_def]
    rfl
  exact ⟨by simp only [executeInstruction, hul], rfl⟩

/-- Witness for C4 at a concrete input without a Loop block at all. -/
theorem c4_break_with_exit_fatal_witness :
    executeInstruction vmExitErr codeT
        { stack := [Obj.intv 1, Obj.intv 2],
          blocks := [{ typ := .withBlock 3 (Obj.raw 5), level := 2 }],
          lasti := 0, vmExc := [] } .breakI = Res.fatal := by
  have h := c4_break_with_exit_fatal vmExitErr codeT
    { stack := [Obj.intv 1, Obj.intv 2],
      blocks := [{ typ := .withBlock 3 (Obj.raw 5), level := 2 }],
      lasti := 0, vmExc := [] }
    3 (Obj.raw 5) 2 (newValueError "exit boom") rfl rfl
  exact h.1

/-- C6: `Raise(argc=0)` re-raises the VM's current exception when one exists
(the executor then overwrites its `__cause__` and `__context__` with none);
with no current exception it raises the runtime-error
`"No active exception to reraise"`.  `Raise(argc=1)` popping a class that
derives `BaseException` raises an instance of exactly that class,
instantiated with no arguments. -/
theorem c6_raise_semantics (vm : VM) (code : CodeObject) (st : St)
    (c cid : Nat) (m : String) (tb : List Obj) (cause context : Obj)
    (rest : List Obj) :
    (currentException st = Option.some (Obj.exc c m tb cause context) →
      executeInstruction vm code st (.raiseI 0) =
        Res.err (Obj.exc c m tb Obj.none Obj.none) st) ∧
    (currentException st = Option.none →
      executeInstruction vm code st (.raiseI 0) =
        Res.err (newException runtimeErrorId "No active exception to reraise") st) ∧
    (st.stack = rest ++ [Obj.clsv cid] → vm.derivesBaseException cid = true →
      executeInstruction vm code st (.raiseI 1) =
        Res.err (Obj.exc cid "" [] Obj.none ((currentException st).getD Obj.none))
          { st with stack := rest } ∧
      Obj.classOf (Obj.exc cid "" [] Obj.none ((currentException st).getD Obj.none)) =
        Obj.clsv cid) := by
  have hrc0 : raiseCause vm st 0 = Res.ok Obj.none st := rfl
  have hrc1 : raiseCause vm st 1 = Res.ok Obj.none st := rfl
  refine ⟨?_, ?_, ?_⟩
  · intro hcur
    have hre : raiseException vm st 0 =
        Res.ok (Obj.exc c m tb cause context) st := by
      unfold raiseException
      rw [hcur]
    simp only [executeInstruction, hrc0, hre]
    rfl
  · intro hcur
    have hre : raiseException vm st 0 =
        Res.err (newException runtimeErrorId "No active exception to reraise") st := by
      unfold raiseException
      rw [hcur]
    simp only [executeInstruction, hrc0, hre]
  · intro hst hderiv
    have hre : raiseException vm st 1 =
        Res.ok (newEmptyException cid) { st with stack := rest } := by
      unfold raiseException getException
      rw [popValue_concat hst]
      simp [isBaseExceptionInstance, hderiv]
    refine ⟨?_, rfl⟩
    simp only [executeInstruction, hrc1, hre]
    rfl

/-- Witness for C6 at concrete states: a current exception of class 7, an
empty exception register, and raising the bare class 9. -/
theorem c6_raise_semantics_witness :
    executeInstruction vmIter codeT
        { stack := [], blocks := [], lasti := 0,
          vmExc := [Obj.exc 7 "boom" [] Obj.none Obj.none] } (.raiseI 0) =
      Res.err (Obj.exc 7 "boom" [] Obj.none Obj.none)
        { stack := [], blocks := [], lasti := 0,
          vmExc := [Obj.exc 7 "boom" [] Obj.none Obj.none] } ∧
    executeInstruction vmIter codeT
        { stack := [], blocks := [], lasti := 0, vmExc := [] } (.raiseI 0) =
      Res.err (newException runtimeErrorId "No active exception to reraise")
        { stack := [], blocks := [], lasti := 0, vmExc := [] } ∧
    executeInstruction vmIter codeT
        { stack := [Obj.clsv 9], blocks := [], lasti := 0, vmExc := [] } (.raiseI 1) =
      Res.err (Obj.exc 9 "" [] Obj.none Obj.none)
        { stack := [], blocks := [], lasti := 0, vmExc := [] } := by
  refine ⟨?_, ?_, ?_⟩
  · exact (c6_raise_semantics vmIter codeT
      { stack := [], blocks := [], lasti := 0,
        vmExc := [Obj.exc 7 "boom" [] Obj.none Obj.none] }
      7 0 "boom" [] Obj.none Obj.none []).1 rfl
  · exact (c6_raise_semantics vmIter codeT
      { stack := [], blocks := [], lasti := 0, vmExc := [] }
      0 0 "" [] Obj.none Obj.none []).2.1 rfl
  · exact ((c6_raise_semantics vmIter codeT
      { stack := [Obj.clsv 9], blocks := [], lasti := 0, vmExc := [] }
      0 9 "" [] Obj.none Obj.none []).2.2 rfl rfl).1

/-- Code object for the C5 witness: a bare re-raise inside a TryExcept. -/
def codeC5 : CodeObject :=
  { instructions := [.raiseI 0], labelMap := fun l => l, locations := fun _ => 3,
    objName := "f", sourcePath := "a.py" }

/-- Frame state for the C5 witness. -/
def stC5 : St :=
  { stack := [], blocks := [{ typ := .tryExcept 0, level := 0 }], lasti := 0, vmExc := [] }

/-- C5: when an instruction raises during `run`, the dispatch loop appends
the `(source-path, line, owning-name)` record to the exception's traceback
list BEFORE unwinding, so an exception caught by a TryExcept handler in the
same frame carries the new traceback entry: the exception left on the
operand stack (and in the VM exception register) at handler entry has the
record appended. -/
theorem c5_traceback_appended_before_unwind (vm : VM) (code : CodeObject)
    (st st1 : St) (fuel : Nat) (c : Nat) (m : String) (tb : List Obj)
    (cause context : Obj) (bs : List Block) (handler : Label) (lvl : Nat)
    (hstep : step vm code st = Res.err (Obj.exc c m tb cause context) st1)
    (hblk : st1.blocks = bs ++ [{ typ := .tryExcept handler, level := lvl }]) :
    ∃ st2 : St,
      run vm code (fuel + 1) st = run vm code fuel st2 ∧
      st2.stack.getLast? = Option.some
        (Obj.exc c m
          (tb ++ [Obj.tup [Obj.strv code.sourcePath, Obj.intv (code.locations st.lasti),
            Obj.strv code.objName]])
          cause context) ∧
      currentException st2 = st2.stack.getLast? := by
  have hunw := unwindException_tryExcept vm code st1
    (Obj.exc c m
      (tb ++ [Obj.tup [Obj.strv code.sourcePath, Obj.intv (code.locations st.lasti),
        Obj.strv code.objName]])
      cause context) bs handler lvl hblk
  refine ⟨jump code handler
    (pushExcReg
      (pushValue
        (pushBlock { st1 with blocks := bs, stack := st1.stack.take lvl } .exceptHandler)
        (Obj.exc c m
          (tb ++ [Obj.tup [Obj.strv code.sourcePath, Obj.intv (code.locations st.lasti),
            Obj.strv code.objName]])
          cause context))
      (Obj.exc c m
        (tb ++ [Obj.tup [Obj.strv code.sourcePath, Obj.intv (code.locations st.lasti),
          Obj.strv code.objName]])
        cause context)), ?_, ?_, ?_⟩
  · simp only [run, hstep, handleException, hunw]
  · simp [pushExcReg, pushValue, pushBlock, jump]
  · simp [pushExcReg, pushValue, pushBlock, jump, currentException]

/-- Witness for C5: a bare re-raise with an empty exception register raises
the runtime-error, which is caught by the enclosing TryExcept with the
traceback record `("a.py", 3, "f")` appended. -/
theorem c5_traceback_appended_before_unwind_witness :
    ∃ st2 : St,
      run vmIter codeC5 1 stC5 = run vmIter codeC5 0 st2 ∧
      st2.stack.getLast? = Option.some
        (Obj.exc runtimeErrorId "No active exception to reraise"
          ([] ++ [Obj.tup [Obj.strv "a.py", Obj.intv 3, Obj.strv "f"]])
          Obj.none Obj.none) ∧
      currentException st2 = st2.stack.getLast? := by
  have h := c5_traceback_appended_before_unwind vmIter codeC5 stC5
    { stC5 with lasti := 1 } 0 runtimeErrorId "No active exception to reraise"
    [] Obj.none Obj.none [] 0 0 rfl rfl
  exact h

end RustPythonFrame
